import Mathlib

/-!
Shallow embedding of the `browsers` Go package (github.com/luoxk/browsers):
a controller managing browser-automation sessions.

Source files embedded:
* `browser_instance.go` — `BrowserInstance` with its `closed` flag, `Close`,
  the gated operations `Goto` / `GetCookies`, the ungated `SabaFetch` /
  `CallJs2Str` bridge, `monitorContext`, and `convertCookies`.
* the controller file (`BrowserController`, `NewBrowserController`,
  `LaunchBrowser`, `CloseBrowser`, `GetBrowserInstance`, `CloseAllBrowsers`,
  `GetBrowserCount`, `BrowserOptions`).
* an alternate revision of the instance file whose `Close` returns an
  `error` value (always nil); embedded as `BrowserInstance.CloseErr`.

Modelling conventions:
* Go `error` values become `Option String` (`none` = nil) or
  `Except String α` for `(value, error)` pairs.
* The opaque chromedp handles (`Browser *chromedp.Context`, `Ctx`, the
  `Cancel` closure) are external capabilities.  The state we keep is what
  the claims observe: the `closed` flag, plus effect counters recording how
  often `chromedp.Cancel(bi.Ctx)` was attempted (`cancelCount`) and how
  often the release closure `bi.Cancel()` was invoked (`releaseCount`).
  `hasCancel` models `bi.Cancel != nil`.
* Calls into the external driver (`chromedp.Run`, `Evaluate`,
  `network.GetCookies`) are represented by an oracle argument carrying the
  driver's answer, and every operation additionally returns the list of
  remote actions it submitted to the driver, so "attempted work against the
  context" is observable.
* `chromedp.Evaluate` decodes into the target map only when the call
  succeeds, so the evaluation outcome is either a failure (map left empty)
  or a success carrying the optional decoded `"dst"` entry.
-/

/-- RemoteResult carrier (`BrowserResponse` in `browser_instance.go`):
fields `Data`, `Error`, `Token`, all strings, `Error` doubling as the
failure channel. -/
structure BrowserResponse where
  Data : String
  Error : String
  Token : String
  deriving DecidableEq

/-- Err method of `BrowserResponse`: a non-empty `Error` field converts to a
structured error, otherwise nil. -/
def BrowserResponse.Err (r : BrowserResponse) : Option String :=
  if r.Error.length > 0 then some r.Error else none

/-- State of one `BrowserInstance` (from `browser_instance.go`).  `ID` and
`closed` are the Go fields; `hasCancel` models `Cancel != nil`;
`cancelCount` counts invocations of `chromedp.Cancel(bi.Ctx)` and
`releaseCount` invocations of the release closure `bi.Cancel()`. -/
structure BrowserInstance where
  ID : Nat
  closed : Bool
  hasCancel : Bool
  cancelCount : Nat
  releaseCount : Nat
  deriving DecidableEq

/-- Closed accessor of `browser_instance.go` (reads `closed` under the
read lock). -/
def BrowserInstance.Closed (bi : BrowserInstance) : Bool :=
  bi.closed

/-- IsClosed accessor of the alternate instance file (same flag read under
its mutex). -/
def BrowserInstance.IsClosed (bi : BrowserInstance) : Bool :=
  bi.closed

/-- Close from `browser_instance.go`: under the lock, return at once if
`closed` is already set; otherwise attempt `chromedp.Cancel` (failure only
logged), invoke the release closure when non-nil, and set `closed`.  The Go
method has no return value. -/
def BrowserInstance.Close (bi : BrowserInstance) : BrowserInstance :=
  if bi.closed then bi
  else
    { bi with
      closed := true
      cancelCount := bi.cancelCount + 1
      releaseCount := bi.releaseCount + (if bi.hasCancel then 1 else 0) }

/-- Close of the alternate instance revision (`Close() error`): identical
guard and release steps; returns nil on the already-closed path and on the
closing path alike. -/
def BrowserInstance.CloseErr (bi : BrowserInstance) : BrowserInstance × Option String :=
  if bi.closed then (bi, none)
  else
    ({ bi with
       closed := true
       cancelCount := bi.cancelCount + 1
       releaseCount := bi.releaseCount + (if bi.hasCancel then 1 else 0) }, none)

/-- NewBrowserInstance: fresh instance with `closed = false`; the Go
constructor also starts the `monitorContext` goroutine (modelled by
`stepEvent`/`runEvents` below). -/
def NewBrowserInstance (id : Nat) (hasCancel : Bool) : BrowserInstance :=
  { ID := id, closed := false, hasCancel := hasCancel
    cancelCount := 0, releaseCount := 0 }

/-- Remote actions an instance submits to the external driver. -/
inductive RemoteAction where
  | runGoto (url : String)
  | runGetCookies
  | runEvaluate (expr : String)
  deriving DecidableEq

/-- SessionClosed sentinel message returned by the gated operations. -/
def sessionClosedMsg : String := "浏览器已关闭"

/-- Outcome of a remote evaluation (`chromedp.Run` of an `Evaluate` action
decoding into a map): on failure the target map is left empty; on success
the decoded map may or may not contain the `"dst"` entry. -/
inductive EvalOutcome (α : Type) where
  | failure (msg : String)
  | success (dst : Option α)
  deriving DecidableEq

/-- Goto: returns the SessionClosed sentinel up front when `closed` is set,
submitting nothing; otherwise submits one `chromedp.Run` consisting of the
`beforeNavigate` hooks (run in order, first failure aborting) followed by
the navigation, whose driver-side result is the `navResult` oracle. -/
def BrowserInstance.Goto (bi : BrowserInstance) (url : String)
    (beforeNavigate : List (Option String)) (navResult : Option String) :
    Option String × List RemoteAction :=
  if bi.Closed then (some sessionClosedMsg, [])
  else
    match beforeNavigate.findSome? id with
    | some e => (some e, [RemoteAction.runGoto url])
    | none => (navResult, [RemoteAction.runGoto url])

/-- Network-layer cookie record (`network.Cookie` fields used by
`convertCookies`). -/
structure NetworkCookie where
  name : String
  value : String
  path : String
  domain : String
  secure : Bool
  httpOnly : Bool
  deriving DecidableEq

/-- HTTP cookie record (`http.Cookie` fields set by `convertCookies`). -/
structure HttpCookie where
  name : String
  value : String
  path : String
  domain : String
  secure : Bool
  httpOnly : Bool
  deriving DecidableEq

/-- convertCookies: maps each network cookie to an HTTP cookie, copying
name, value, path, domain, secure and http-only, preserving order. -/
def convertCookies (netCookies : List NetworkCookie) : List HttpCookie :=
  netCookies.map fun c =>
    { name := c.name, value := c.value, path := c.path, domain := c.domain
      secure := c.secure, httpOnly := c.httpOnly }

/-- GetCookies: fails with the SessionClosed sentinel (no remote work) when
`closed` is set; otherwise queries the driver (oracle `cap`), wrapping a
driver failure and converting the cookies on success. -/
def BrowserInstance.GetCookies (bi : BrowserInstance)
    (cap : Except String (List NetworkCookie)) :
    Except String (List HttpCookie) × List RemoteAction :=
  if bi.Closed then (Except.error sessionClosedMsg, [])
  else
    match cap with
    | Except.error e =>
        (Except.error ("获取 cookies 失败: " ++ e), [RemoteAction.runGetCookies])
    | Except.ok cks => (Except.ok (convertCookies cks), [RemoteAction.runGetCookies])

/-- SabaFetch: submits the evaluation unconditionally (there is no
`closed` check in the source), then returns the decoded `"dst"` entry if
present; otherwise a `BrowserResponse` with empty data/token whose error is
the run error's message, or `"nil Response"` when the run succeeded but
decoded no `"dst"`. -/
def BrowserInstance.SabaFetch (bi : BrowserInstance) (eval : String)
    (outcome : EvalOutcome BrowserResponse) :
    BrowserResponse × List RemoteAction :=
  match outcome with
  | EvalOutcome.success (some val) => (val, [RemoteAction.runEvaluate eval])
  | EvalOutcome.success none =>
      ({ Data := "", Error := "nil Response", Token := "" },
       [RemoteAction.runEvaluate eval])
  | EvalOutcome.failure msg =>
      ({ Data := "", Error := msg, Token := "" },
       [RemoteAction.runEvaluate eval])

/-- CallJs2Str: submits the evaluation via `WaitFor`/`chromedp.Run`
unconditionally (no `closed` check), discards the run error entirely, and
returns the decoded `"dst"` string when present, the empty string
otherwise. -/
def BrowserInstance.CallJs2Str (bi : BrowserInstance) (eval : String)
    (outcome : EvalOutcome String) : String × List RemoteAction :=
  match outcome with
  | EvalOutcome.success (some val) => (val, [RemoteAction.runEvaluate eval])
  | EvalOutcome.success none => ("", [RemoteAction.runEvaluate eval])
  | EvalOutcome.failure _ => ("", [RemoteAction.runEvaluate eval])

/-- Events a live session can observe: the context's done-signal (to which
the `monitorContext` goroutine reacts) or an explicit caller `Close`. -/
inductive SessionEvent where
  | ctxDone
  | callerClose
  deriving DecidableEq

/-- stepEvent: `monitorContext` blocks on `<-bi.Ctx.Done()` and then calls
`bi.Close()`; an explicit caller close calls the same method. -/
def stepEvent (bi : BrowserInstance) : SessionEvent → BrowserInstance
  | SessionEvent.ctxDone => bi.Close
  | SessionEvent.callerClose => bi.Close

/-- runEvents: the session state after observing a sequence of events. -/
def runEvents (bi : BrowserInstance) (events : List SessionEvent) : BrowserInstance :=
  events.foldl stepEvent bi

/-- LaunchOptions (`BrowserOptions` in the controller file).  `HookFunc` is
a function value in Go; only its presence (`!= nil`) matters here.
`WindowSize` is an optional `image.Point` (X, Y). -/
structure BrowserOptions where
  Path : String
  Fingerprint : String
  Proxy : String
  UserDir : String
  Headless : Bool
  HookFunc : Bool
  WindowSize : Option (Int × Int)
  DisableGPU : Bool
  deriving DecidableEq

/-- Configuration entries appended to the external allocator builder.
`defaultOpts` stands for the opaque `chromedp.DefaultExecAllocatorOptions`
slice the list starts from. -/
inductive AllocOpt where
  | defaultOpts
  | execPath (p : String)
  | flagBool (name : String) (v : Bool)
  | userDataDir (d : String)
  | disableGPU
  | windowSize (x y : Int)
  | proxyServer (p : String)
  | flagStr (name : String) (v : String)
  deriving DecidableEq

/-- Allocator-option construction of `LaunchBrowser`: defaults, then
`ExecPath(options.Path)` and `Flag("headless", options.Headless)`
unconditionally, then `UserDataDir`, `DisableGPU`, `WindowSize`,
`ProxyServer` and `Flag("fp", ...)` each only when its option is
set/non-empty, in source order. -/
def buildAllocatorOpts (options : BrowserOptions) : List AllocOpt :=
  [AllocOpt.defaultOpts,
   AllocOpt.execPath options.Path,
   AllocOpt.flagBool "headless" options.Headless]
  ++ (if options.UserDir = "" then [] else [AllocOpt.userDataDir options.UserDir])
  ++ (if options.DisableGPU then [AllocOpt.disableGPU] else [])
  ++ (match options.WindowSize with
      | some wh => [AllocOpt.windowSize wh.1 wh.2]
      | none => [])
  ++ (if options.Proxy = "" then [] else [AllocOpt.proxyServer options.Proxy])
  ++ (if options.Fingerprint = "" then []
      else [AllocOpt.flagStr "fp" options.Fingerprint])

/-- Registry state (`BrowserController`): the id-to-instance map (keys
unique) and the next-ID counter, both guarded by one mutex in Go. -/
structure BrowserController where
  instances : List (Nat × BrowserInstance)
  nextID : Nat
  deriving DecidableEq

/-- NewBrowserController: empty map, IDs allocated from 1. -/
def NewBrowserController : BrowserController :=
  { instances := [], nextID := 1 }

/-- Map lookup (`bc.instances[id]`). -/
def lookupInstance (id : Nat) : List (Nat × BrowserInstance) → Option BrowserInstance
  | [] => none
  | (k, v) :: rest => if k = id then some v else lookupInstance id rest

/-- Map removal (`delete(bc.instances, id)`). -/
def removeInstance (id : Nat) : List (Nat × BrowserInstance) → List (Nat × BrowserInstance)
  | [] => []
  | (k, v) :: rest =>
      if k = id then removeInstance id rest else (k, v) :: removeInstance id rest

/-- NotFound message format of `CloseBrowser`/`GetBrowserInstance`. -/
def notFoundMsg (id : Nat) : String :=
  "browser instance with ID " ++ toString id ++ " does not exist"

/-- Driver answers consumed by one `LaunchBrowser` call: the result of the
`about:blank` liveness probe and, when a hook is configured, of
`fetch.Enable()`. -/
structure LaunchOracle where
  probeErr : Option String
  enableErr : Option String
  deriving DecidableEq

/-- Release effects `LaunchBrowser` can perform on its failure paths:
`cancel()` (the chromedp context) and `cancelAlloc()` (the allocator). -/
inductive LaunchEffect where
  | cancelCtx
  | cancelAlloc
  deriving DecidableEq

/-- Decidable equality for `Except`, needed to evaluate launch results on
concrete inputs. -/
def exceptDecEq {ε α : Type} [DecidableEq ε] [DecidableEq α] :
    DecidableEq (Except ε α)
  | Except.error x, Except.error y =>
      if h : x = y then Decidable.isTrue (congrArg Except.error h)
      else Decidable.isFalse fun hc => h (Except.error.inj hc)
  | Except.error _, Except.ok _ => Decidable.isFalse fun hc => Except.noConfusion hc
  | Except.ok _, Except.error _ => Decidable.isFalse fun hc => Except.noConfusion hc
  | Except.ok x, Except.ok y =>
      if h : x = y then Decidable.isTrue (congrArg Except.ok h)
      else Decidable.isFalse fun hc => h (Except.ok.inj hc)

instance {ε α : Type} [DecidableEq ε] [DecidableEq α] : DecidableEq (Except ε α) :=
  exceptDecEq

/-- Everything one `LaunchBrowser` call produces: the updated registry, the
`(instance, error)` return, the release effects performed on the spot, and
the allocator options handed to the external builder. -/
structure LaunchResult where
  ctrl : BrowserController
  result : Except String BrowserInstance
  effects : List LaunchEffect
  allocOpts : List AllocOpt
  deriving DecidableEq

/-- Registration tail of `LaunchBrowser` after probe (and hook setup)
succeeded: allocate `id := nextID`, increment the counter, wrap the context
in a `NewBrowserInstance` owning the composite release closure, insert it
into the map, and return it. -/
def BrowserController.registerInstance (bc : BrowserController)
    (options : BrowserOptions) : LaunchResult :=
  let id := bc.nextID
  let inst := NewBrowserInstance id true
  { ctrl := { instances := (id, inst) :: bc.instances, nextID := bc.nextID + 1 }
    result := Except.ok inst
    effects := []
    allocOpts := buildAllocatorOpts options }

/-- LaunchBrowser: builds the allocator options, creates the contexts,
probes with `Navigate("about:blank")` — on probe failure calls `cancel()`
then `cancelAlloc()` and returns the error.  When a hook is configured it
runs `fetch.Enable()` — on failure it logs and returns the error without
invoking either release function.  Otherwise it registers the new
instance. -/
def BrowserController.LaunchBrowser (bc : BrowserController)
    (options : BrowserOptions) (oracle : LaunchOracle) : LaunchResult :=
  match oracle.probeErr with
  | some e =>
      { ctrl := bc, result := Except.error e
        effects := [LaunchEffect.cancelCtx, LaunchEffect.cancelAlloc]
        allocOpts := buildAllocatorOpts options }
  | none =>
      if options.HookFunc then
        match oracle.enableErr with
        | some e =>
            { ctrl := bc, result := Except.error e, effects := []
              allocOpts := buildAllocatorOpts options }
        | none => bc.registerInstance options
      else bc.registerInstance options

/-- Result of `CloseBrowser`: updated registry, returned error, and the
looked-up instance's state after `instance.Close()` ran (what a caller
still holding the instance reference observes). -/
structure CloseResult where
  ctrl : BrowserController
  err : Option String
  closedInstance : Option BrowserInstance
  deriving DecidableEq

/-- CloseBrowser: NotFound error when `id` is absent; otherwise invokes
`instance.Close()` (which cannot return an error in this revision) and
unconditionally deletes the entry. -/
def BrowserController.CloseBrowser (bc : BrowserController) (id : Nat) : CloseResult :=
  match lookupInstance id bc.instances with
  | none => { ctrl := bc, err := some (notFoundMsg id), closedInstance := none }
  | some inst =>
      { ctrl := { instances := removeInstance id bc.instances, nextID := bc.nextID }
        err := none
        closedInstance := some inst.Close }

/-- GetBrowserInstance: NotFound error when absent, the shared instance
otherwise. -/
def BrowserController.GetBrowserInstance (bc : BrowserController) (id : Nat) :
    Except String BrowserInstance :=
  match lookupInstance id bc.instances with
  | none => Except.error (notFoundMsg id)
  | some inst => Except.ok inst

/-- Result of `CloseAllBrowsers`: the emptied registry and the post-Close
states of every instance that was registered. -/
structure CloseAllResult where
  ctrl : BrowserController
  closedInstances : List (Nat × BrowserInstance)
  deriving DecidableEq

/-- CloseAllBrowsers: iterates the map, calling `instance.Close()` and
deleting every entry. -/
def BrowserController.CloseAllBrowsers (bc : BrowserController) : CloseAllResult :=
  { ctrl := { instances := [], nextID := bc.nextID }
    closedInstances := bc.instances.map fun p => (p.1, p.2.Close) }

/-- GetBrowserCount: size of the registry map. -/
def BrowserController.GetBrowserCount (bc : BrowserController) : Nat :=
  bc.instances.length

/-- Operations a caller can drive the controller with. -/
inductive ControllerOp where
  | launch (options : BrowserOptions) (oracle : LaunchOracle)
  | closeOne (id : Nat)
  | closeAll
  deriving DecidableEq

/-- Whether a `LaunchBrowser` call with these driver answers succeeds:
the probe must succeed, and `fetch.Enable` too when a hook is
configured. -/
def launchSucceeds (options : BrowserOptions) (oracle : LaunchOracle) : Bool :=
  oracle.probeErr.isNone && (!options.HookFunc || oracle.enableErr.isNone)

/-- runOps: executes a sequence of controller operations, returning the
final registry and the IDs of the successfully launched instances in
issuance order. -/
def runOps : BrowserController → List ControllerOp → BrowserController × List Nat
  | bc, [] => (bc, [])
  | bc, ControllerOp.launch options oracle :: rest =>
      let r := bc.LaunchBrowser options oracle
      let tail := runOps r.ctrl rest
      match r.result with
      | Except.ok inst => (tail.1, inst.ID :: tail.2)
      | Except.error _ => (tail.1, tail.2)
  | bc, ControllerOp.closeOne id :: rest => runOps (bc.CloseBrowser id).ctrl rest
  | bc, ControllerOp.closeAll :: rest => runOps bc.CloseAllBrowsers.ctrl rest

/-- succCount: number of successful launches in an operation sequence. -/
def succCount : List ControllerOp → Nat
  | [] => 0
  | ControllerOp.launch options oracle :: rest =>
      (if launchSucceeds options oracle then 1 else 0) + succCount rest
  | ControllerOp.closeOne _ :: rest => succCount rest
  | ControllerOp.closeAll :: rest => succCount rest

/-- Helper: Close always leaves the flag set. -/
theorem Close_closed_eq (bi : BrowserInstance) : bi.Close.closed = true := by
  unfold BrowserInstance.Close
  split <;> simp_all

/-- Helper: Close on an already-closed instance changes nothing. -/
theorem Close_of_closed {bi : BrowserInstance} (h : bi.closed = true) :
    bi.Close = bi := by
  simp [BrowserInstance.Close, h]

/-- Helper: iterating Close one or more times equals a single Close. -/
theorem Close_iterate :
    ∀ (n : Nat) (bi : BrowserInstance), 1 ≤ n →
      BrowserInstance.Close^[n] bi = bi.Close := by
  intro n
  induction n with
  | zero => intro bi h; omega
  | succ m ih =>
      intro bi _
      rcases Nat.eq_zero_or_pos m with hm | hm
      · subst hm; simp
      · rw [Function.iterate_succ_apply, ih bi.Close hm,
            Close_of_closed (Close_closed_eq bi)]

/-- C2: Close is idempotent — once `closed` is set, Close (either revision)
returns immediately with no error and no state change; any number of Close
calls beyond the first equals a single Close, and that single Close
performs the context-cancel attempt and the release-closure invocation
exactly once each (the latter only when the closure is non-nil). -/
theorem close_idempotent (bi : BrowserInstance) (n : Nat) :
    (bi.closed = true → bi.Close = bi ∧ bi.CloseErr = (bi, none)) ∧
    (1 ≤ n → BrowserInstance.Close^[n] bi = bi.Close) ∧
    (bi.closed = false →
      bi.Close.closed = true ∧
      bi.Close.cancelCount = bi.cancelCount + 1 ∧
      bi.Close.releaseCount = bi.releaseCount + (if bi.hasCancel then 1 else 0)) := by
  refine ⟨fun h => ⟨Close_of_closed h, ?_⟩, fun h => Close_iterate n bi h, fun h => ?_⟩
  · simp [BrowserInstance.CloseErr, h]
  · simp [BrowserInstance.Close, h]

/-- Witness for C2 at concrete instances: an already-closed instance and a
fresh one closed twice. -/
theorem close_idempotent_witness :
    ({ ID := 1, closed := true, hasCancel := true, cancelCount := 1,
       releaseCount := 1 : BrowserInstance }.Close =
      { ID := 1, closed := true, hasCancel := true, cancelCount := 1,
        releaseCount := 1 : BrowserInstance } ∧
     { ID := 1, closed := true, hasCancel := true, cancelCount := 1,
       releaseCount := 1 : BrowserInstance }.CloseErr =
      ({ ID := 1, closed := true, hasCancel := true, cancelCount := 1,
         releaseCount := 1 : BrowserInstance }, none)) ∧
    BrowserInstance.Close^[2] (NewBrowserInstance 1 true) =
      (NewBrowserInstance 1 true).Close ∧
    ((NewBrowserInstance 1 true).Close.closed = true ∧
     (NewBrowserInstance 1 true).Close.cancelCount = 0 + 1 ∧
     (NewBrowserInstance 1 true).Close.releaseCount = 0 + (if true then 1 else 0)) :=
  ⟨(close_idempotent
      { ID := 1, closed := true, hasCancel := true, cancelCount := 1,
        releaseCount := 1 } 2).1 rfl,
   (close_idempotent (NewBrowserInstance 1 true) 2).2.1 (by decide),
   (close_idempotent (NewBrowserInstance 1 true) 2).2.2 rfl⟩

/-- Helper: a run of events that are all done-signals is an iterated
Close. -/
theorem runEvents_all_ctxDone (events : List SessionEvent) :
    ∀ b : BrowserInstance, (∀ ev ∈ events, ev = SessionEvent.ctxDone) →
      runEvents b events = BrowserInstance.Close^[events.length] b := by
  induction events with
  | nil => intro b _; rfl
  | cons e rest ih =>
      intro b h
      have he : e = SessionEvent.ctxDone := h e (by simp)
      subst he
      have : runEvents b (SessionEvent.ctxDone :: rest) = runEvents b.Close rest := rfl
      rw [this, ih b.Close (fun ev hv => h ev (List.mem_cons_of_mem _ hv)),
          List.length_cons, Function.iterate_succ_apply]

/-- C3: if the context's done-signal fires (one or more times) with no
caller-initiated Close, the monitor path — which is exactly the idempotent
`Close` method — moves a fresh instance to Closed, performing the cancel
attempt exactly once and the release exactly once (when the release
closure is non-nil). -/
theorem monitor_closes_once (id : Nat) (hasC : Bool) (events : List SessionEvent)
    (hne : events ≠ []) (hmon : ∀ ev ∈ events, ev = SessionEvent.ctxDone) :
    (∀ b : BrowserInstance, stepEvent b SessionEvent.ctxDone = b.Close) ∧
    runEvents (NewBrowserInstance id hasC) events = (NewBrowserInstance id hasC).Close ∧
    (runEvents (NewBrowserInstance id hasC) events).closed = true ∧
    (runEvents (NewBrowserInstance id hasC) events).cancelCount = 1 ∧
    (runEvents (NewBrowserInstance id hasC) events).releaseCount =
      (if hasC then 1 else 0) := by
  have hlen : 1 ≤ events.length := by
    cases events with
    | nil => exact absurd rfl hne
    | cons e rest => simp
  have hrun : runEvents (NewBrowserInstance id hasC) events =
      (NewBrowserInstance id hasC).Close := by
    rw [runEvents_all_ctxDone events (NewBrowserInstance id hasC) hmon,
        Close_iterate events.length (NewBrowserInstance id hasC) hlen]
  refine ⟨fun b => rfl, hrun, ?_, ?_, ?_⟩ <;>
    rw [hrun] <;> simp [NewBrowserInstance, BrowserInstance.Close]

/-- Witness for C3: a single unsolicited done-signal on a fresh instance
with a non-nil release closure. -/
theorem monitor_closes_once_witness :
    (∀ b : BrowserInstance, stepEvent b SessionEvent.ctxDone = b.Close) ∧
    runEvents (NewBrowserInstance 7 true) [SessionEvent.ctxDone] =
      (NewBrowserInstance 7 true).Close ∧
    (runEvents (NewBrowserInstance 7 true) [SessionEvent.ctxDone]).closed = true ∧
    (runEvents (NewBrowserInstance 7 true) [SessionEvent.ctxDone]).cancelCount = 1 ∧
    (runEvents (NewBrowserInstance 7 true) [SessionEvent.ctxDone]).releaseCount =
      (if true then 1 else 0) :=
  monitor_closes_once 7 true [SessionEvent.ctxDone] (by decide)
    (by intro ev hv; simp at hv; exact hv)

/-- C7: when the evaluation decodes no `"dst"` entry, SabaFetch returns a
response with empty data and token whose error is `"nil Response"`, or the
run error's message when the run failed. -/
theorem sabafetch_nil_response (bi : BrowserInstance) (expr msg : String) :
    (bi.SabaFetch expr (EvalOutcome.success none)).1 =
      { Data := "", Error := "nil Response", Token := "" } ∧
    (bi.SabaFetch expr (EvalOutcome.failure msg)).1 =
      { Data := "", Error := msg, Token := "" } :=
  ⟨rfl, rfl⟩

/-- C10: CallJs2Str returns the empty string both when the evaluation
fails (any message) and when it succeeds without a `"dst"` entry, and the
two cases produce identical output — no error information is exposed. -/
theorem calljs2str_silent (bi : BrowserInstance) (expr msg : String) :
    (bi.CallJs2Str expr (EvalOutcome.failure msg)).1 = "" ∧
    (bi.CallJs2Str expr (EvalOutcome.success none)).1 = "" ∧
    (bi.CallJs2Str expr (EvalOutcome.failure msg)).1 =
      (bi.CallJs2Str expr (EvalOutcome.success none)).1 :=
  ⟨rfl, rfl, rfl⟩

/-- Example closed instance (flag set, release already performed). -/
def closedEx : BrowserInstance :=
  { ID := 1, closed := true, hasCancel := true, cancelCount := 1, releaseCount := 1 }

/-- Counterexample to C1 as stated: on a closed instance, SabaFetch and
CallJs2Str still submit the evaluation to the driver (non-empty action
list) and SabaFetch's result carries the driver's cancellation message, not
the SessionClosed sentinel. -/
theorem gate_check_cx :
    closedEx.Closed = true ∧
    (closedEx.SabaFetch "fetch(1)" (EvalOutcome.failure "context canceled")).2 ≠ [] ∧
    (closedEx.SabaFetch "fetch(1)" (EvalOutcome.failure "context canceled")).1.Error ≠
      sessionClosedMsg ∧
    (closedEx.CallJs2Str "document.title" (EvalOutcome.failure "context canceled")).2 ≠ [] := by
  refine ⟨rfl, by simp [BrowserInstance.SabaFetch], ?_, by simp [BrowserInstance.CallJs2Str]⟩
  decide

/-- C1 amended: on a closed instance, Goto and GetCookies fail up front
with the SessionClosed sentinel and submit no work, while SabaFetch and
CallJs2Str perform no closed-check and submit the evaluation anyway. -/
theorem gate_check_amended (bi : BrowserInstance) (url e1 e2 : String)
    (hooks : List (Option String)) (nav : Option String)
    (cap : Except String (List NetworkCookie))
    (o1 : EvalOutcome BrowserResponse) (o2 : EvalOutcome String)
    (h : bi.closed = true) :
    bi.Goto url hooks nav = (some sessionClosedMsg, []) ∧
    bi.GetCookies cap = (Except.error sessionClosedMsg, []) ∧
    (bi.SabaFetch e1 o1).2 = [RemoteAction.runEvaluate e1] ∧
    (bi.CallJs2Str e2 o2).2 = [RemoteAction.runEvaluate e2] := by
  refine ⟨?_, ?_, ?_, ?_⟩
  · simp [BrowserInstance.Goto, BrowserInstance.Closed, h]
  · simp [BrowserInstance.GetCookies, BrowserInstance.Closed, h]
  · cases o1 with
    | failure m => rfl
    | success d => cases d <;> rfl
  · cases o2 with
    | failure m => rfl
    | success d => cases d <;> rfl

/-- Witness for C1's amended theorem at a concrete closed instance. -/
theorem gate_check_amended_witness :
    closedEx.Goto "https://example.com" [] none = (some sessionClosedMsg, []) ∧
    closedEx.GetCookies (Except.ok []) = (Except.error sessionClosedMsg, []) ∧
    (closedEx.SabaFetch "fetch(1)" (EvalOutcome.success none)).2 =
      [RemoteAction.runEvaluate "fetch(1)"] ∧
    (closedEx.CallJs2Str "1" (EvalOutcome.success none)).2 =
      [RemoteAction.runEvaluate "1"] :=
  gate_check_amended closedEx "https://example.com" "fetch(1)" "1" [] none
    (Except.ok []) (EvalOutcome.success none) (EvalOutcome.success none) rfl

/-- Helper: removing a key makes it unfindable. -/
theorem lookup_remove_self (id : Nat) (l : List (Nat × BrowserInstance)) :
    lookupInstance id (removeInstance id l) = none := by
  induction l with
  | nil => rfl
  | cons p rest ih =>
      obtain ⟨k, v⟩ := p
      by_cases hk : k = id <;> simp [removeInstance, hk, lookupInstance, ih]

/-- Helper: removing an absent key is the identity. -/
theorem remove_of_not_mem (id : Nat) (l : List (Nat × BrowserInstance))
    (h : id ∉ l.map Prod.fst) : removeInstance id l = l := by
  induction l with
  | nil => rfl
  | cons p rest ih =>
      obtain ⟨k, v⟩ := p
      have h1 : ¬k = id := fun hk => h (by simp [hk])
      have h2 : id ∉ rest.map Prod.fst := fun hm => h (by simp [hm])
      simp [removeInstance, h1, ih h2]

/-- Helper: a found key is in the key list. -/
theorem mem_of_lookup (id : Nat) (l : List (Nat × BrowserInstance))
    (inst : BrowserInstance) (h : lookupInstance id l = some inst) :
    id ∈ l.map Prod.fst := by
  induction l with
  | nil => simp [lookupInstance] at h
  | cons p rest ih =>
      obtain ⟨k, v⟩ := p
      by_cases hk : k = id
      · simp [hk]
      · simp [lookupInstance, hk] at h
        simp [ih h]

/-- Helper: with unique keys, removing a present key shrinks the map by
exactly one entry. -/
theorem length_remove (id : Nat) (l : List (Nat × BrowserInstance))
    (hnd : (l.map Prod.fst).Nodup) (inst : BrowserInstance)
    (h : lookupInstance id l = some inst) :
    (removeInstance id l).length + 1 = l.length := by
  induction l with
  | nil => simp [lookupInstance] at h
  | cons p rest ih =>
      obtain ⟨k, v⟩ := p
      rw [List.map_cons, List.nodup_cons] at hnd
      by_cases hk : k = id
      · subst hk
        rw [removeInstance]
        simp [remove_of_not_mem k rest hnd.1]
      · simp [lookupInstance, hk] at h
        simp [removeInstance, hk, ih hnd.2 h]

/-- C5: CloseBrowser fails with NotFound exactly when the id is absent;
when present it invokes the session's Close and unconditionally removes the
entry, so a later GetBrowserInstance fails NotFound and the count drops by
one. -/
theorem closebrowser_spec (bc : BrowserController) (id : Nat)
    (hnd : (bc.instances.map Prod.fst).Nodup) :
    ((bc.CloseBrowser id).err = some (notFoundMsg id) ↔
      lookupInstance id bc.instances = none) ∧
    (lookupInstance id bc.instances = none →
      bc.CloseBrowser id =
        { ctrl := bc, err := some (notFoundMsg id), closedInstance := none }) ∧
    (∀ inst, lookupInstance id bc.instances = some inst →
      (bc.CloseBrowser id).err = none ∧
      (bc.CloseBrowser id).closedInstance = some inst.Close ∧
      inst.Close.closed = true ∧
      (bc.CloseBrowser id).ctrl.GetBrowserInstance id =
        Except.error (notFoundMsg id) ∧
      (bc.CloseBrowser id).ctrl.GetBrowserCount + 1 = bc.GetBrowserCount) := by
  refine ⟨?_, ?_, ?_⟩
  · cases hl : lookupInstance id bc.instances <;>
      simp [BrowserController.CloseBrowser, hl]
  · intro hl; simp [BrowserController.CloseBrowser, hl]
  · intro inst hl
    refine ⟨?_, ?_, Close_closed_eq inst, ?_, ?_⟩ <;>
      simp [BrowserController.CloseBrowser, hl,
            BrowserController.GetBrowserInstance, BrowserController.GetBrowserCount,
            lookup_remove_self, length_remove id bc.instances hnd inst hl]

/-- Example registry with two open sessions. -/
def demoCtrl : BrowserController :=
  { instances := [(1, NewBrowserInstance 1 true), (2, NewBrowserInstance 2 true)]
    nextID := 3 }

/-- Witness for C5: closing id 1 of a two-session registry, and closing the
absent id 5. -/
theorem closebrowser_spec_witness :
    (demoCtrl.CloseBrowser 5 =
      { ctrl := demoCtrl, err := some (notFoundMsg 5), closedInstance := none }) ∧
    (demoCtrl.CloseBrowser 1).err = none ∧
    (demoCtrl.CloseBrowser 1).closedInstance = some (NewBrowserInstance 1 true).Close ∧
    (demoCtrl.CloseBrowser 1).ctrl.GetBrowserInstance 1 =
      Except.error (notFoundMsg 1) ∧
    (demoCtrl.CloseBrowser 1).ctrl.GetBrowserCount + 1 = demoCtrl.GetBrowserCount :=
  ⟨(closebrowser_spec demoCtrl 5 (by decide)).2.1 (by decide),
   ((closebrowser_spec demoCtrl 1 (by decide)).2.2 (NewBrowserInstance 1 true)
      (by decide)).1,
   ((closebrowser_spec demoCtrl 1 (by decide)).2.2 (NewBrowserInstance 1 true)
      (by decide)).2.1,
   ((closebrowser_spec demoCtrl 1 (by decide)).2.2 (NewBrowserInstance 1 true)
      (by decide)).2.2.2.1,
   ((closebrowser_spec demoCtrl 1 (by decide)).2.2 (NewBrowserInstance 1 true)
      (by decide)).2.2.2.2⟩

/-- C4 amended: a probe failure releases the chromedp context and the
allocator (in that order) before returning the error and registers nothing;
an interception-enable failure returns the error with the registry likewise
untouched but performs no release at all. -/
theorem launch_release_amended (bc : BrowserController)
    (options : BrowserOptions) (oracle : LaunchOracle) :
    (∀ e, oracle.probeErr = some e →
      bc.LaunchBrowser options oracle =
        { ctrl := bc, result := Except.error e,
          effects := [LaunchEffect.cancelCtx, LaunchEffect.cancelAlloc],
          allocOpts := buildAllocatorOpts options }) ∧
    (∀ e, oracle.probeErr = none → options.HookFunc = true →
      oracle.enableErr = some e →
      bc.LaunchBrowser options oracle =
        { ctrl := bc, result := Except.error e, effects := []
          allocOpts := buildAllocatorOpts options }) := by
  constructor
  · intro e he; simp [BrowserController.LaunchBrowser, he]
  · intro e hp hh he; simp [BrowserController.LaunchBrowser, hp, hh, he]

/-- Launch options carrying an interception hook. -/
def hookOptions : BrowserOptions :=
  { Path := "C:\\Users\\luoxk\\AppData\\Local\\Chromium\\Application\\chrome.exe"
    Fingerprint := "", Proxy := "", UserDir := "", Headless := true
    HookFunc := true, WindowSize := none, DisableGPU := false }

/-- Counterexample to C4 as stated: when `fetch.Enable` fails, LaunchBrowser
returns the error and registers nothing, but performs neither release
effect — the partially-created context is not released. -/
theorem launch_release_cx :
    (NewBrowserController.LaunchBrowser hookOptions
      { probeErr := none, enableErr := some "fetch enable failed" }).result =
        Except.error "fetch enable failed" ∧
    (NewBrowserController.LaunchBrowser hookOptions
      { probeErr := none, enableErr := some "fetch enable failed" }).effects = [] ∧
    (NewBrowserController.LaunchBrowser hookOptions
      { probeErr := none, enableErr := some "fetch enable failed" }).ctrl =
        NewBrowserController := by
  refine ⟨rfl, rfl, rfl⟩

/-- Plain launch options with no hook (taken from the repository's test). -/
def plainOptions : BrowserOptions :=
  { Path := "C:\\Users\\luoxk\\AppData\\Local\\Chromium\\Application\\chrome.exe"
    Fingerprint := "", Proxy := "", UserDir := "", Headless := false
    HookFunc := false, WindowSize := none, DisableGPU := false }

/-- Witness for C4's amended theorem: a concrete probe failure and a
concrete interception-enable failure. -/
theorem launch_release_amended_witness :
    NewBrowserController.LaunchBrowser plainOptions
      { probeErr := some "exec not found", enableErr := none } =
      { ctrl := NewBrowserController, result := Except.error "exec not found"
        effects := [LaunchEffect.cancelCtx, LaunchEffect.cancelAlloc]
        allocOpts := buildAllocatorOpts plainOptions } ∧
    NewBrowserController.LaunchBrowser hookOptions
      { probeErr := none, enableErr := some "boom" } =
      { ctrl := NewBrowserController, result := Except.error "boom"
        effects := [], allocOpts := buildAllocatorOpts hookOptions } :=
  ⟨(launch_release_amended NewBrowserController plainOptions
      { probeErr := some "exec not found", enableErr := none }).1
      "exec not found" rfl,
   (launch_release_amended NewBrowserController hookOptions
      { probeErr := none, enableErr := some "boom" }).2 "boom" rfl rfl rfl⟩

/-- Helper: a successful launch is exactly the registration tail. -/
theorem LaunchBrowser_success (bc : BrowserController) (options : BrowserOptions)
    (oracle : LaunchOracle) (h : launchSucceeds options oracle = true) :
    bc.LaunchBrowser options oracle = bc.registerInstance options := by
  unfold launchSucceeds at h
  unfold BrowserController.LaunchBrowser
  cases hp : oracle.probeErr with
  | some e => simp [hp] at h
  | none =>
      simp [hp] at h
      cases hh : options.HookFunc with
      | false => simp [hh]
      | true =>
          simp [hh] at h
          cases he : oracle.enableErr with
          | some e => simp [he] at h
          | none => simp [he]

/-- Helper: a failed launch leaves the registry untouched and returns an
error. -/
theorem LaunchBrowser_failure (bc : BrowserController) (options : BrowserOptions)
    (oracle : LaunchOracle) (h : launchSucceeds options oracle = false) :
    (bc.LaunchBrowser options oracle).ctrl = bc ∧
    ∃ e, (bc.LaunchBrowser options oracle).result = Except.error e := by
  unfold launchSucceeds at h
  unfold BrowserController.LaunchBrowser
  cases hp : oracle.probeErr with
  | some e => exact ⟨rfl, e, rfl⟩
  | none =>
      simp [hp] at h
      obtain ⟨hh, he⟩ := h
      cases hen : oracle.enableErr with
      | some e => simp [hh, hen]
      | none => rw [hen] at he; simp at he

/-- Helper: CloseBrowser never changes the next-ID counter. -/
theorem CloseBrowser_nextID (bc : BrowserController) (id : Nat) :
    (bc.CloseBrowser id).ctrl.nextID = bc.nextID := by
  unfold BrowserController.CloseBrowser
  cases lookupInstance id bc.instances <;> rfl

/-- Helper: the issued-handle list of any operation sequence is the
contiguous range starting at the initial next-ID counter, one handle per
successful launch. -/
theorem runOps_issued (ops : List ControllerOp) :
    ∀ bc : BrowserController,
      (runOps bc ops).2 = List.range' bc.nextID (succCount ops) := by
  induction ops with
  | nil => intro bc; rfl
  | cons op rest ih =>
      intro bc
      cases op with
      | launch options oracle =>
          cases hs : launchSucceeds options oracle with
          | false =>
              obtain ⟨hctrl, e, hres⟩ :=
                LaunchBrowser_failure bc options oracle hs
              simp only [runOps, hres, succCount, hs, if_false]
              rw [ih, hctrl]
              simp
          | true =>
              rw [runOps, LaunchBrowser_success bc options oracle hs]
              simp only [BrowserController.registerInstance, succCount, hs, if_true]
              rw [ih]
              simp [NewBrowserInstance, List.range'_succ, Nat.add_comm]
      | closeOne id =>
          rw [runOps, ih, CloseBrowser_nextID, succCount]
      | closeAll =>
          rw [runOps, ih, succCount]
          rfl

/-- C6: starting from a fresh controller, the successfully issued handles
form exactly the contiguous strictly increasing sequence 1, 2, ..., k (one
per successful launch); they are pairwise distinct across the whole
operation sequence — in particular a handle removed by CloseBrowser or
CloseAllBrowsers is never issued again — and the first issued handle is
1. -/
theorem handles_monotone (ops : List ControllerOp) :
    (runOps NewBrowserController ops).2 = List.range' 1 (succCount ops) ∧
    List.Pairwise (· < ·) (runOps NewBrowserController ops).2 ∧
    (runOps NewBrowserController ops).2.Nodup ∧
    (0 < succCount ops → (runOps NewBrowserController ops).2.head? = some 1) := by
  have h := runOps_issued ops NewBrowserController
  refine ⟨h, ?_, ?_, ?_⟩
  · rw [h]; exact List.pairwise_lt_range' ..
  · rw [h]; exact List.nodup_range' ..
  · intro hk
    rw [h]
    cases hsc : succCount ops with
    | zero => omega
    | succ m => rw [List.range'_succ]; rfl

/-- Operation sequence exercising launches (one failing), a close and a
close-all. -/
def demoOps : List ControllerOp :=
  [ControllerOp.launch plainOptions { probeErr := none, enableErr := none },
   ControllerOp.launch plainOptions { probeErr := some "exec not found", enableErr := none },
   ControllerOp.launch plainOptions { probeErr := none, enableErr := none },
   ControllerOp.closeOne 1,
   ControllerOp.launch plainOptions { probeErr := none, enableErr := none },
   ControllerOp.closeAll]

/-- Witness for C6 on a concrete operation sequence with three successful
launches. -/
theorem handles_monotone_witness :
    (runOps NewBrowserController demoOps).2 = List.range' 1 (succCount demoOps) ∧
    (runOps NewBrowserController demoOps).2.head? = some 1 :=
  ⟨(handles_monotone demoOps).1,
   (handles_monotone demoOps).2.2.2 (by decide)⟩

/-- C8: CloseAllBrowsers empties the registry (count 0) and runs the Close
path on every session that was registered, each ending with its closed
flag set. -/
theorem closeall_closes_everything (bc : BrowserController) :
    bc.CloseAllBrowsers.ctrl.GetBrowserCount = 0 ∧
    bc.CloseAllBrowsers.ctrl.instances = [] ∧
    ∀ p ∈ bc.instances,
      (p.1, p.2.Close) ∈ bc.CloseAllBrowsers.closedInstances ∧
      p.2.Close.closed = true := by
  refine ⟨rfl, rfl, fun p hp => ⟨?_, Close_closed_eq p.2⟩⟩
  exact List.mem_map_of_mem _ hp

/-- Witness for C8 on a concrete two-session registry. -/
theorem closeall_closes_everything_witness :
    demoCtrl.CloseAllBrowsers.ctrl.GetBrowserCount = 0 ∧
    ((1 : Nat), (NewBrowserInstance 1 true).Close) ∈
      demoCtrl.CloseAllBrowsers.closedInstances ∧
    (NewBrowserInstance 1 true).Close.closed = true :=
  ⟨(closeall_closes_everything demoCtrl).1,
   ((closeall_closes_everything demoCtrl).2.2 (1, NewBrowserInstance 1 true)
      (by decide)).1,
   ((closeall_closes_everything demoCtrl).2.2 (1, NewBrowserInstance 1 true)
      (by decide)).2⟩

/-- Predicate: entry produced by `ExecPath`. -/
def isExecPath : AllocOpt → Bool
  | AllocOpt.execPath _ => true
  | _ => false

/-- Predicate: entry produced by `Flag("headless", ...)`. -/
def isHeadlessFlag : AllocOpt → Bool
  | AllocOpt.flagBool n _ => n == "headless"
  | _ => false

/-- Predicate: entry produced by `UserDataDir`. -/
def isUserDataDir : AllocOpt → Bool
  | AllocOpt.userDataDir _ => true
  | _ => false

/-- Predicate: the `DisableGPU` entry. -/
def isDisableGPU : AllocOpt → Bool
  | AllocOpt.disableGPU => true
  | _ => false

/-- Predicate: entry produced by `WindowSize`. -/
def isWindowSize : AllocOpt → Bool
  | AllocOpt.windowSize _ _ => true
  | _ => false

/-- Predicate: entry produced by `ProxyServer`. -/
def isProxyServer : AllocOpt → Bool
  | AllocOpt.proxyServer _ => true
  | _ => false

/-- Predicate: entry produced by `Flag("fp", ...)`. -/
def isFpFlag : AllocOpt → Bool
  | AllocOpt.flagStr n _ => n == "fp"
  | _ => false

/-- C9 amended: fingerprint, proxy, user-data directory, window size and
disable-GPU each contribute exactly one builder entry when set and none
when absent/empty; the executable path and the headless flag are passed
unconditionally — exactly one entry each even when the path is empty or
the flag is false. -/
theorem options_mapping_amended (o : BrowserOptions) :
    List.countP isExecPath (buildAllocatorOpts o) = 1 ∧
    List.countP isHeadlessFlag (buildAllocatorOpts o) = 1 ∧
    List.countP isUserDataDir (buildAllocatorOpts o) =
      (if o.UserDir = "" then 0 else 1) ∧
    List.countP isDisableGPU (buildAllocatorOpts o) =
      (if o.DisableGPU then 1 else 0) ∧
    List.countP isWindowSize (buildAllocatorOpts o) =
      (match o.WindowSize with | none => 0 | some _ => 1) ∧
    List.countP isProxyServer (buildAllocatorOpts o) =
      (if o.Proxy = "" then 0 else 1) ∧
    List.countP isFpFlag (buildAllocatorOpts o) =
      (if o.Fingerprint = "" then 0 else 1) := by
  cases hw : o.WindowSize <;>
    by_cases hu : o.UserDir = "" <;>
      by_cases hp : o.Proxy = "" <;>
        by_cases hf : o.Fingerprint = "" <;>
          cases hd : o.DisableGPU <;>
            simp [buildAllocatorOpts, hw, hu, hp, hf, hd,
                  List.countP_append, List.countP_cons, List.countP_nil,
                  isExecPath, isHeadlessFlag, isUserDataDir, isDisableGPU,
                  isWindowSize, isProxyServer, isFpFlag]

/-- Launch options with everything empty or off. -/
def emptyOptions : BrowserOptions :=
  { Path := "", Fingerprint := "", Proxy := "", UserDir := "", Headless := false
    HookFunc := false, WindowSize := none, DisableGPU := false }

/-- Counterexample to C9 as stated: with an empty path and headless off,
the builder list still receives an `ExecPath("")` entry and a
`Flag("headless", false)` entry — empty path and false headless flag are
not omitted. -/
theorem options_mapping_cx :
    emptyOptions.Path = "" ∧ emptyOptions.Headless = false ∧
    AllocOpt.execPath "" ∈ buildAllocatorOpts emptyOptions ∧
    AllocOpt.flagBool "headless" false ∈ buildAllocatorOpts emptyOptions := by
  refine ⟨rfl, rfl, ?_, ?_⟩ <;> simp [buildAllocatorOpts, emptyOptions]
